import Mathlib

/-!
Shallow embedding of the NBA dashboard script (src/nba_dashboard.py).

The script loads a CSV of 25 player rows, adds a constant season column,
filters by season / position / selected players from sidebar widgets, and
derives aggregate tables (groupby means, value counts, nlargest) that are
handed to charts.  We embed the data rows as structures over `Rat` (the CSV
statistics are decimal numbers), tables as `List`s of rows in file order,
and the fallible parts (CSV reading, positional indexing `iloc[0]`) as
`Except`/`Option` values.  Streamlit renders the page top to bottom and an
uncaught exception stops emission at the point it is raised, so a tab's
render result is the list of items emitted before the error, paired with
the error if one occurred.
-/

/-- One data row of the input CSV `top_25_nba_players.csv`, with the columns
`name, team, position, ppg, rpg, apg, spg, bpg, fg_pct, efficiency`. -/
structure RawPlayer where
  name : String
  team : String
  position : String
  ppg : Rat
  rpg : Rat
  apg : Rat
  spg : Rat
  bpg : Rat
  fg_pct : Rat
  efficiency : Rat
deriving DecidableEq

/-- A row of the loaded table: a CSV row plus the `season` column added by
`load_data` (line 20 of the script). -/
structure Player extends RawPlayer where
  season : String
deriving DecidableEq

/-- Adding the season column to one row: `df['season'] = '2024-25'`. -/
def addSeason (r : RawPlayer) : Player :=
  { r with season := "2024-25" }

/-- `load_data` (script lines 16-21): `pd.read_csv` either fails (missing or
malformed file, represented by the `Except.error` input) or yields the list
of CSV rows; on success the constant season column is added to every row.
There is no exception handling, so a read failure propagates unchanged. -/
def load_data (csv : Except String (List RawPlayer)) : Except String (List Player) :=
  csv.map (fun rows => rows.map addSeason)

/-- The sidebar widget state read on a rerun: selected season (line 32),
players to compare (line 40), position filter (line 48), and the tab-2
player selectbox (line 145). -/
structure Widgets where
  selected_season : String
  selected_players : List String
  selected_position : String
  selected_player : String
deriving DecidableEq

/-- Season options (line 31): `sorted(df['season'].unique(), reverse=True)`;
`unique` keeps first-appearance order, then we sort descending. -/
def seasons (df : List Player) : List String :=
  (df.map (fun r => r.season)).dedup.insertionSort (fun a b => b ≤ a)

/-- Position options (line 47): `['All'] + list(df['position'].unique())`. -/
def positions (df : List Player) : List String :=
  "All" :: (df.map (fun r => r.position)).dedup

/-- The filtered table (lines 35 and 55-56): first keep the rows whose season
equals the selected season, then, when the selected position is not `'All'`,
keep the rows whose position equals it. -/
def filtered_df (df : List Player) (selected_season selected_position : String) :
    List Player :=
  let bySeason := df.filter (fun r => r.season == selected_season)
  if selected_position ≠ "All" then
    bySeason.filter (fun r => r.position == selected_position)
  else bySeason

/-- The comparison table (line 73):
`filtered_df[filtered_df['name'].isin(selected_players)]`. -/
def comparison_df (filtered : List Player) (selected_players : List String) :
    List Player :=
  filtered.filter (fun r => selected_players.contains r.name)

/-- `Series.mean()`: arithmetic mean of the values; on an empty series pandas
yields NaN, which we represent as `none`. -/
def seriesMean (l : List Rat) : Option Rat :=
  if l.isEmpty then none else some (l.sum / (l.length : Rat))

/-- `Series.max()`: maximum of the values, NaN (`none`) on an empty series. -/
def seriesMax (l : List Rat) : Option Rat :=
  l.max?

/-- Arithmetic mean of a list of values, used for the groupby aggregations
whose groups are nonempty by construction (each key occurs in the table). -/
def mean (l : List Rat) : Rat :=
  l.sum / (l.length : Rat)

/-- The ppg value of the (first) row of the table carrying a given name; the
default branch is never reached when the name is present in the table. -/
def lookupPpg (df : List Player) (n : String) : Rat :=
  match df.find? (fun r => r.name == n) with
  | some r => r.ppg
  | none => 0

/-- The Points Per Game metric of the comparison tab (line 80):
`comparison_df['ppg'].mean()` where `comparison_df` is derived from the
season/position-filtered table and the selected players. -/
def ppgMetric (df : List Player) (selected_season : String)
    (selected_players : List String) (selected_position : String) : Option Rat :=
  seriesMean ((comparison_df (filtered_df df selected_season selected_position)
    selected_players).map (fun r => r.ppg))

/-- The melted comparison table (lines 92-97): `melt` stacks, for each of the
value columns `ppg, rpg, apg` in turn, one `(name, statistic, value)` row per
input row. -/
def comparison_stats (c : List Player) : List (String × String × Rat) :=
  (c.map (fun r => (r.name, "ppg", r.ppg)))
    ++ (c.map (fun r => (r.name, "rpg", r.rpg)))
    ++ (c.map (fun r => (r.name, "apg", r.apg)))

/-- The radar traces (lines 115-124): for each selected player, take the first
row of `comparison_df[comparison_df['name'] == player]` via `iloc[0]` and read
the five category columns.  `iloc[0]` on an empty frame raises `IndexError`,
which aborts the loop (and the rest of the script). -/
def radarTraces (c : List Player) (selected_players : List String) :
    Except String (List (String × List Rat)) :=
  selected_players.mapM (fun p =>
    match (c.filter (fun r => r.name == p)).head? with
    | some row => Except.ok (p, [row.ppg, row.rpg, row.apg, row.spg, row.bpg])
    | none => Except.error "IndexError: single positional indexer is out-of-bounds")

/-- The radial axis bound (line 130): the maximum over the five category
columns of the column maxima of the comparison table. -/
def radarRange (c : List Player) : Option Rat :=
  ([seriesMax (c.map (fun r => r.ppg)), seriesMax (c.map (fun r => r.rpg)),
    seriesMax (c.map (fun r => r.apg)), seriesMax (c.map (fun r => r.spg)),
    seriesMax (c.map (fun r => r.bpg))].reduceOption).max?

/-- One element emitted to the page while a tab renders. -/
inductive Item where
  | write (msg : String)
  | info (msg : String)
  | metric (label : String) (value delta : Option Rat)
  | barChart (data : List (String × String × Rat))
  | radarChart (traces : List (String × List Rat)) (axisBound : Option Rat)
deriving DecidableEq

/-- Rendering of the Player Comparison tab (lines 66-138).  An empty player
selection takes the `st.info` branch (line 138) and computes nothing else.  A
non-empty selection emits the header line, the three mean/max metrics and the
grouped bar chart, then builds the radar traces; an `IndexError` raised there
stops emission, so the radar chart itself only appears when every selected
player has a row in the comparison table. -/
def renderTab1 (filtered : List Player) (selected_players : List String) :
    List Item × Option String :=
  if selected_players.isEmpty then
    ([Item.info "Please select players to compare from the sidebar."], none)
  else
    let c := comparison_df filtered selected_players
    let pre : List Item :=
      [Item.write ("Comparing: " ++ String.intercalate ", " selected_players),
       Item.metric "Points Per Game" (seriesMean (c.map (fun r => r.ppg)))
         (seriesMax (c.map (fun r => r.ppg))),
       Item.metric "Rebounds Per Game" (seriesMean (c.map (fun r => r.rpg)))
         (seriesMax (c.map (fun r => r.rpg))),
       Item.metric "Assists Per Game" (seriesMean (c.map (fun r => r.apg)))
         (seriesMax (c.map (fun r => r.apg))),
       Item.barChart (comparison_stats c)]
    match radarTraces c selected_players with
    | Except.ok traces => (pre ++ [Item.radarChart traces (radarRange c)], none)
    | Except.error e => (pre, some e)

/-- One row of a groupby-mean aggregate (lines 218-223 and 261-266): a key and
the means of `ppg`, `rpg`, `apg`, `efficiency` over the key's group. -/
structure StatRow where
  key : String
  ppg : Rat
  rpg : Rat
  apg : Rat
  efficiency : Rat
deriving DecidableEq

/-- `df.groupby(key).agg(mean).reset_index()`: pandas groups by the distinct
key values sorted ascending (the default `sort=True`) and takes the mean of
each aggregated column over each group. -/
def groupbyAggMeans (key : Player → String) (df : List Player) : List StatRow :=
  ((df.map key).dedup.insertionSort (fun a b => a ≤ b)).map (fun k =>
    let g := df.filter (fun r => key r == k)
    { key := k, ppg := mean (g.map (fun r => r.ppg)),
      rpg := mean (g.map (fun r => r.rpg)),
      apg := mean (g.map (fun r => r.apg)),
      efficiency := mean (g.map (fun r => r.efficiency)) })

/-- Per-position averages (lines 218-223), computed over the full table. -/
def position_stats (df : List Player) : List StatRow :=
  groupbyAggMeans (fun r => r.position) df

/-- Per-team averages (lines 261-266), computed over the full table. -/
def team_stats (df : List Player) : List StatRow :=
  groupbyAggMeans (fun r => r.team) df

/-- `Series.value_counts()`: occurrence count of each distinct value, sorted
by count descending; the sort is stable over first-appearance order. -/
def value_counts (vals : List String) : List (String × Nat) :=
  (vals.dedup.map (fun v => (v, vals.count v))).insertionSort
    (fun a b => b.2 ≤ a.2)

/-- Position distribution (lines 206-207), computed over the full table. -/
def position_counts (df : List Player) : List (String × Nat) :=
  value_counts (df.map (fun r => r.position))

/-- Team distribution (lines 289-290), computed over the full table. -/
def team_counts (df : List Player) : List (String × Nat) :=
  value_counts (df.map (fun r => r.team))

/-- Ordering used to embed `df.nlargest(10, 'efficiency')` (line 277) on
index-tagged rows: larger efficiency first and, between equal efficiency
values, the smaller original row index first — pandas `nlargest` uses
`keep='first'`, preferring earlier rows on ties. -/
def effIdxLE (a b : Nat × Player) : Prop :=
  b.2.efficiency < a.2.efficiency ∨
    (a.2.efficiency = b.2.efficiency ∧ a.1 ≤ b.1)

instance : DecidableRel effIdxLE := fun a b => by
  unfold effIdxLE; infer_instance

instance : IsTotal (Nat × Player) effIdxLE where
  total a b := by
    rcases lt_trichotomy a.2.efficiency b.2.efficiency with h | h | h
    · exact Or.inr (Or.inl h)
    · rcases Nat.le_total a.1 b.1 with hi | hi
      · exact Or.inl (Or.inr ⟨h, hi⟩)
      · exact Or.inr (Or.inr ⟨h.symm, hi⟩)
    · exact Or.inl (Or.inl h)

instance : IsTrans (Nat × Player) effIdxLE where
  trans a b c hab hbc := by
    rcases hab with hab | ⟨hab, hab2⟩
    · rcases hbc with hbc | ⟨hbc, _⟩
      · exact Or.inl (hbc.trans hab)
      · exact Or.inl (hbc ▸ hab)
    · rcases hbc with hbc | ⟨hbc, hbc2⟩
      · exact Or.inl (hab ▸ hbc)
      · exact Or.inr ⟨hab.trans hbc, hab2.trans hbc2⟩

/-- The rows of `df.nlargest(10, 'efficiency')` tagged with their original
row indices: sort the index-tagged rows by efficiency descending (ties by
original index ascending) and take the first 10. -/
def top10Indexed (df : List Player) : List (Nat × Player) :=
  (df.enum.insertionSort effIdxLE).take 10

/-- `df.nlargest(10, 'efficiency')` (line 277): the top-10 rows themselves. -/
def top_10_efficiency (df : List Player) : List Player :=
  (top10Indexed df).map Prod.snd

/-- Everything the script derives from the table and the widget state on one
rerun: the comparison tab's emission stream, the tab-2 row (`iloc[0]` of the
rows matching the selectbox name), and the aggregate tables behind the
charts of tabs 3 and 4. -/
structure Page where
  tab1 : List Item × Option String
  player_stats : Option Player
  position_counts : List (String × Nat)
  position_stats : List StatRow
  scatter : List Player
  team_stats : List StatRow
  top10 : List Player
  team_counts : List (String × Nat)
deriving DecidableEq

/-- One top-to-bottom execution of the script body over a loaded table `df`
and a widget state `w` (lines 26-299).  The position distribution (line 206),
per-position averages (line 218), per-team averages (line 261), top-10 chart
(line 277) and team distribution (line 289) are all computed over `df`
itself; only the comparison tab and the points-vs-rebounds scatter
(line 245) read the filtered table. -/
def renderWith (df : List Player) (w : Widgets) : Page :=
  let fdf := filtered_df df w.selected_season w.selected_position
  { tab1 := renderTab1 fdf w.selected_players
    player_stats := (df.filter (fun r => r.name == w.selected_player)).head?
    position_counts := position_counts df
    position_stats := position_stats df
    scatter := fdf
    team_stats := team_stats df
    top10 := top_10_efficiency df
    team_counts := team_counts df }

/-- A whole page render: load the table (line 24), then run the script body.
A load failure propagates and nothing of the page is produced. -/
def renderPage (csv : Except String (List RawPlayer)) (w : Widgets) :
    Except String Page :=
  (load_data csv).map (fun df => renderWith df w)

/-- The per-process state of the app: the `@st.cache_data` slot of
`load_data`, holding the loaded table once the first rerun has loaded it. -/
structure ProcState where
  cache : Option (List Player)
deriving DecidableEq

/-- One widget-triggered rerun of the script: `load_data` returns the cached
table when present (the cache is keyed on the loading function and never
invalidated), otherwise it reads the CSV and fills the cache; the script body
then runs over the table. -/
def rerunScript (csv : Except String (List RawPlayer)) (s : ProcState)
    (w : Widgets) : ProcState × Except String Page :=
  match s.cache with
  | some df => (⟨some df⟩, Except.ok (renderWith df w))
  | none =>
    match load_data csv with
    | Except.ok df => (⟨some df⟩, Except.ok (renderWith df w))
    | Except.error e => (⟨none⟩, Except.error e)

/-- A sequence of widget interactions: each interaction reruns the whole
script against the current process state. -/
def runAll (csv : Except String (List RawPlayer)) (s : ProcState) :
    List Widgets → ProcState × List (Except String Page)
  | [] => (s, [])
  | w :: ws =>
    let sp := rerunScript csv s w
    let rest := runAll csv sp.1 ws
    (rest.1, sp.2 :: rest.2)

/-- A two-row table used as concrete input: a point guard scoring 30 and a
shooting guard scoring 20, both with the constant season. -/
def rawA : RawPlayer :=
  { name := "A", team := "T1", position := "PG", ppg := 30, rpg := 5,
    apg := 7, spg := 1, bpg := 1, fg_pct := 50, efficiency := 31 }

/-- Second concrete CSV row. -/
def rawB : RawPlayer :=
  { name := "B", team := "T2", position := "SG", ppg := 20, rpg := 4,
    apg := 3, spg := 2, bpg := 1, fg_pct := 45, efficiency := 22 }

/-- The two-row loaded table built from the concrete CSV rows. -/
def dfPair : List Player :=
  [addSeason rawA, addSeason rawB]

/-- A table of 25 identical CSV rows, used as a concrete well-formed input. -/
def raw25 : List RawPlayer :=
  List.replicate 25 rawA

/-- A concrete widget state. -/
def wDefault : Widgets :=
  ⟨"2024-25", ["A", "B"], "All", "A"⟩

/-- Unfolding of the filtered table when a real position is selected. -/
theorem filtered_df_pos (df : List Player) (ssn pos : String) (h : pos ≠ "All") :
    filtered_df df ssn pos
      = (df.filter (fun r => r.season == ssn)).filter
          (fun r => r.position == pos) := by
  simp [filtered_df, h]

/-- Unfolding of the filtered table when the position filter is `'All'`. -/
theorem filtered_df_all (df : List Player) (ssn : String) :
    filtered_df df ssn "All" = df.filter (fun r => r.season == ssn) := by
  simp [filtered_df]

/-- Rows of the filtered table are rows of the loaded table. -/
theorem filtered_df_subset (df : List Player) (ssn pos : String) :
    ∀ r ∈ filtered_df df ssn pos, r ∈ df := by
  intro r hr
  by_cases hp : pos = "All"
  · subst hp
    rw [filtered_df_all] at hr
    exact List.mem_of_mem_filter hr
  · rw [filtered_df_pos df ssn pos hp] at hr
    exact List.mem_of_mem_filter (List.mem_of_mem_filter hr)

/-- Rows of the top-10 table come from the loaded table. -/
theorem top10Indexed_mem (df : List Player) : ∀ x ∈ top10Indexed df, x.2 ∈ df := by
  intro x hx
  have h1 : x ∈ df.enum.insertionSort effIdxLE := List.mem_of_mem_take hx
  have h2 : x ∈ df.enum :=
    (List.perm_insertionSort effIdxLE df.enum).mem_iff.mp h1
  obtain ⟨i, p⟩ := x
  rw [List.enum_eq_zip_range] at h2
  exact (List.of_mem_zip h2).2

/-- Claim C7: after a successful load every record carries the constant
season "2024-25", and every table a later operation observes (the filtered
table, the comparison table, the top-10 table) is made of rows of the loaded
table, so its records carry the same constant season: no operation changes a
season value. -/
theorem season_constant_c7 (raw : List RawPlayer) (df : List Player)
    (h : load_data (Except.ok raw) = Except.ok df) :
    (∀ r ∈ df, r.season = "2024-25")
      ∧ (∀ ssn pos r, r ∈ filtered_df df ssn pos → r.season = "2024-25")
      ∧ (∀ ssn pos sel r,
          r ∈ comparison_df (filtered_df df ssn pos) sel → r.season = "2024-25")
      ∧ (∀ r ∈ top_10_efficiency df, r.season = "2024-25") := by
  have hdf : raw.map addSeason = df := by simpa [load_data, Except.map] using h
  subst hdf
  have base : ∀ r ∈ raw.map addSeason, r.season = "2024-25" := by
    intro r hr
    rcases List.mem_map.mp hr with ⟨x, _, rfl⟩
    rfl
  refine ⟨base, ?_, ?_, ?_⟩
  · intro ssn pos r hr
    exact base r (filtered_df_subset _ ssn pos r hr)
  · intro ssn pos sel r hr
    exact base r (filtered_df_subset _ ssn pos r (List.mem_of_mem_filter hr))
  · intro r hr
    rcases List.mem_map.mp hr with ⟨x, hx, rfl⟩
    exact base x.2 (top10Indexed_mem _ x hx)

/-- Witness for C7 at the concrete two-row table. -/
theorem season_constant_c7_witness :
    load_data (Except.ok [rawA, rawB]) = Except.ok dfPair
      ∧ ((∀ r ∈ dfPair, r.season = "2024-25")
          ∧ (∀ ssn pos r, r ∈ filtered_df dfPair ssn pos → r.season = "2024-25")
          ∧ (∀ ssn pos sel r,
              r ∈ comparison_df (filtered_df dfPair ssn pos) sel
                → r.season = "2024-25")
          ∧ (∀ r ∈ top_10_efficiency dfPair, r.season = "2024-25")) :=
  ⟨rfl, season_constant_c7 [rawA, rawB] dfPair rfl⟩

/-- Claim C8: loading a well-formed CSV of 25 rows with the required columns
yields exactly 25 records; the records keep all the required column values
(projecting the season away gives back the input rows) and carry the added
season column. -/
theorem load_preserves_rows_c8 (raw : List RawPlayer) (df : List Player)
    (h25 : raw.length = 25) (h : load_data (Except.ok raw) = Except.ok df) :
    df.length = 25 ∧ df.map Player.toRawPlayer = raw
      ∧ ∀ r ∈ df, r.season = "2024-25" := by
  have hdf : raw.map addSeason = df := by simpa [load_data, Except.map] using h
  subst hdf
  refine ⟨by simp [h25], ?_, ?_⟩
  · simp [List.map_map]
    exact List.map_id raw
  · intro r hr
    rcases List.mem_map.mp hr with ⟨x, _, rfl⟩
    rfl

/-- Witness for C8 at a concrete 25-row input. -/
theorem load_preserves_rows_c8_witness :
    raw25.length = 25
      ∧ load_data (Except.ok raw25) = Except.ok (raw25.map addSeason)
      ∧ ((raw25.map addSeason).length = 25
          ∧ (raw25.map addSeason).map Player.toRawPlayer = raw25
          ∧ ∀ r ∈ raw25.map addSeason, r.season = "2024-25") :=
  ⟨rfl, rfl, load_preserves_rows_c8 raw25 (raw25.map addSeason) rfl rfl⟩

/-- Claim C9: the loaded table is immutable across widget interactions.
Starting from the process state whose cache holds the loaded table, any
sequence of widget-triggered reruns leaves the cached table unchanged field
for field and row for row, and every rerun's page is the pure function
`renderWith` of that same table; moreover the first rerun from a cold cache
stores exactly the loaded table. -/
theorem table_immutable_reruns_c9 (raw : List RawPlayer) (df : List Player)
    (h : load_data (Except.ok raw) = Except.ok df) (ws : List Widgets) :
    (runAll (Except.ok raw) ⟨some df⟩ ws).1 = ⟨some df⟩
      ∧ (runAll (Except.ok raw) ⟨some df⟩ ws).2
          = ws.map (fun w => Except.ok (renderWith df w))
      ∧ ∀ w, (rerunScript (Except.ok raw) ⟨none⟩ w).1 = ⟨some df⟩ := by
  have hdf : raw.map addSeason = df := by simpa [load_data, Except.map] using h
  refine ⟨?_, ?_, ?_⟩
  · induction ws with
    | nil => rfl
    | cons w ws ih => simpa [runAll, rerunScript] using ih
  · induction ws with
    | nil => rfl
    | cons w ws ih => simp [runAll, rerunScript, ih]
  · intro w
    simp [rerunScript, load_data, Except.map, hdf]

/-- Witness for C9 at the concrete two-row table and one interaction. -/
theorem table_immutable_reruns_c9_witness :
    load_data (Except.ok [rawA, rawB]) = Except.ok dfPair
      ∧ ((runAll (Except.ok [rawA, rawB]) ⟨some dfPair⟩ [wDefault]).1 = ⟨some dfPair⟩
          ∧ (runAll (Except.ok [rawA, rawB]) ⟨some dfPair⟩ [wDefault]).2
              = [wDefault].map (fun w => Except.ok (renderWith dfPair w))
          ∧ ∀ w, (rerunScript (Except.ok [rawA, rawB]) ⟨none⟩ w).1 = ⟨some dfPair⟩) :=
  ⟨rfl, table_immutable_reruns_c9 [rawA, rawB] dfPair rfl [wDefault]⟩

/-- Claim C1: over a loaded table (all rows carry the constant season and the
enum-like positions of the data model), for any season choice offered by the
sidebar, selecting a position value present in the data filters the table to
exactly the rows of that position — with order and multiplicity preserved and
no other rows — while selecting "All" leaves the season-filtered set, which
is the full table. -/
theorem position_filter_exact_c1 (df : List Player) (ssn : String)
    (hseason : ∀ r ∈ df, r.season = "2024-25")
    (hssn : ssn ∈ seasons df)
    (hpos : ∀ r ∈ df, r.position ∈ (["PG", "SG", "SF", "PF", "C"] : List String)) :
    (∀ p ∈ df.map (fun r => r.position),
        filtered_df df ssn p = df.filter (fun r => r.position == p)
          ∧ ∀ r, r ∈ filtered_df df ssn p ↔ r ∈ df ∧ r.position = p)
      ∧ filtered_df df ssn "All" = df := by
  have hssn2 : ssn = "2024-25" := by
    have h1 : ssn ∈ (df.map (fun r => r.season)).dedup :=
      (List.perm_insertionSort _ _).mem_iff.mp hssn
    have h2 : ssn ∈ df.map (fun r => r.season) := List.mem_dedup.mp h1
    rcases List.mem_map.mp h2 with ⟨r, hr, rfl⟩
    exact hseason r hr
  have hfs : df.filter (fun r => r.season == ssn) = df := by
    rw [List.filter_eq_self]
    intro r hr
    simp [hseason r hr, hssn2]
  constructor
  · intro p hp
    have hne : p ≠ "All" := by
      rcases List.mem_map.mp hp with ⟨r0, hr0, rfl⟩
      have := hpos r0 hr0
      simp only [List.mem_cons, List.not_mem_nil, or_false] at this
      rcases this with h | h | h | h | h <;> rw [h] <;> decide
    have heq : filtered_df df ssn p = df.filter (fun r => r.position == p) := by
      rw [filtered_df_pos df ssn p hne, hfs]
    refine ⟨heq, ?_⟩
    intro r
    rw [heq]
    simp [List.mem_filter]
  · rw [filtered_df_all, hfs]

/-- Witness for C1 at the concrete two-row table. -/
theorem position_filter_exact_c1_witness :
    (∀ r ∈ dfPair, r.season = "2024-25")
      ∧ "2024-25" ∈ seasons dfPair
      ∧ (∀ r ∈ dfPair, r.position ∈ (["PG", "SG", "SF", "PF", "C"] : List String))
      ∧ ((∀ p ∈ dfPair.map (fun r => r.position),
            filtered_df dfPair "2024-25" p
                = dfPair.filter (fun r => r.position == p)
              ∧ ∀ r, r ∈ filtered_df dfPair "2024-25" p
                  ↔ r ∈ dfPair ∧ r.position = p)
          ∧ filtered_df dfPair "2024-25" "All" = dfPair) :=
  ⟨by decide, by decide, by decide,
    position_filter_exact_c1 dfPair "2024-25" (by decide) (by decide) (by decide)⟩

/-- Claim C4: when the set of selected players is empty, the Player
Comparison tab emits exactly the informational message and no error; no
comparison computation contributes to the output, whatever the filtered
table is. -/
theorem empty_selection_info_c4 (filtered : List Player) :
    renderTab1 filtered []
      = ([Item.info "Please select players to compare from the sidebar."], none) :=
  rfl

/-- Claim C5: a concrete witness that a non-empty selection does not
guarantee an error-free comparison render: with the two-row table, player A
selected and the position filter set to "SG" (which differs from the
position of every selected player), the radar-chart construction indexes the
first row of an empty frame and raises an IndexError. -/
theorem nonempty_selection_radar_error_c5 :
    (["A"] : List String) ≠ []
      ∧ (∀ n ∈ (["A"] : List String), ∀ r ∈ dfPair, r.name = n → r.position ≠ "SG")
      ∧ (renderTab1 (filtered_df dfPair "2024-25" "SG") ["A"]).2
          = some "IndexError: single positional indexer is out-of-bounds" := by
  refine ⟨by decide, by decide, ?_⟩
  rfl

/-- Claim C6: when reading the CSV fails (missing or malformed file,
including a missing expected column), the failure propagates unrecovered
through `load_data` and aborts the page render: no partial page is produced
and there is no retry or fallback. -/
theorem load_error_aborts_render_c6 (e : String) (w : Widgets) :
    renderPage (Except.error e) w = Except.error e :=
  rfl

/-- Claim C10: the position distribution, the per-position averages and the
per-team averages are computed over the full loaded table, so they are
invariant under the season, player-selection and position widgets: any two
widget states yield equal derived tables. -/
theorem aggregates_widget_invariant_c10 (df : List Player) (w1 w2 : Widgets) :
    (renderWith df w1).position_counts = (renderWith df w2).position_counts
      ∧ (renderWith df w1).position_stats = (renderWith df w2).position_stats
      ∧ (renderWith df w1).team_stats = (renderWith df w2).team_stats :=
  ⟨rfl, rfl, rfl⟩

/-- The nlargest ordering implies weakly descending efficiency. -/
theorem effIdxLE_eff_le {a b : Nat × Player} (h : effIdxLE a b) :
    b.2.efficiency ≤ a.2.efficiency := by
  rcases h with h | ⟨h, _⟩
  · exact le_of_lt h
  · exact le_of_eq h.symm

/-- The top-10 table is pairwise ordered by the nlargest ordering. -/
theorem top10Indexed_pairwise (df : List Player) :
    (top10Indexed df).Pairwise effIdxLE :=
  List.Pairwise.sublist (List.take_sublist 10 _)
    (List.sorted_insertionSort effIdxLE df.enum)

/-- The original row indices in the top-10 table are pairwise distinct. -/
theorem top10Indexed_fst_nodup (df : List Player) :
    ((top10Indexed df).map Prod.fst).Nodup := by
  have h0 : (df.enum.map Prod.fst).Nodup := List.nodup_enum_map_fst df
  have hperm : List.Perm ((df.enum.insertionSort effIdxLE).map Prod.fst)
      (df.enum.map Prod.fst) :=
    (List.perm_insertionSort effIdxLE df.enum).map Prod.fst
  have h1 : ((df.enum.insertionSort effIdxLE).map Prod.fst).Nodup :=
    hperm.nodup_iff.mpr h0
  exact List.Nodup.sublist (List.Sublist.map Prod.fst (List.take_sublist 10 _)) h1

/-- Claim C3: on a table of at least 10 rows, the top-10-efficiency
computation returns exactly 10 rows, pairwise sorted in weakly descending
order of efficiency, with ties between equal efficiency values broken by the
original row order (the earlier row index comes first), and every returned
row is a row of the table. -/
theorem top10_sorted_c3 (df : List Player) (h : 10 ≤ df.length) :
    (top_10_efficiency df).length = 10
      ∧ (top_10_efficiency df).Pairwise (fun a b => b.efficiency ≤ a.efficiency)
      ∧ (top10Indexed df).Pairwise
          (fun a b => a.2.efficiency = b.2.efficiency → a.1 < b.1)
      ∧ ∀ x ∈ top10Indexed df, x.2 ∈ df := by
  have hp := top10Indexed_pairwise df
  have hnd : (top10Indexed df).Pairwise (fun a b => a.1 ≠ b.1) :=
    List.pairwise_map.mp (top10Indexed_fst_nodup df)
  refine ⟨?_, ?_, ?_, top10Indexed_mem df⟩
  · unfold top_10_efficiency top10Indexed
    rw [List.length_map, List.length_take, List.length_insertionSort,
      List.enum_length]
    omega
  · unfold top_10_efficiency
    exact List.pairwise_map.mpr (hp.imp (fun hab => effIdxLE_eff_le hab))
  · refine (hp.and hnd).imp ?_
    rintro a b ⟨hab, hne⟩ heq
    rcases hab with hlt | ⟨_, hle⟩
    · rw [heq] at hlt
      exact absurd hlt (lt_irrefl _)
    · exact lt_of_le_of_ne hle hne

/-- A table of 10 identical rows used to instantiate C3. -/
def df10 : List Player :=
  List.replicate 10 (addSeason rawA)

/-- Witness for C3 at a concrete 10-row table. -/
theorem top10_sorted_c3_witness :
    10 ≤ df10.length
      ∧ ((top_10_efficiency df10).length = 10
          ∧ (top_10_efficiency df10).Pairwise (fun a b => b.efficiency ≤ a.efficiency)
          ∧ (top10Indexed df10).Pairwise
              (fun a b => a.2.efficiency = b.2.efficiency → a.1 < b.1)
          ∧ ∀ x ∈ top10Indexed df10, x.2 ∈ df10) :=
  ⟨by decide, top10_sorted_c3 df10 (by decide)⟩

/-- Filtering by a pointwise disjoint disjunction splits the mapped sum. -/
theorem filter_or_sum {α : Type} (p q : α → Bool) (f : α → Rat) :
    ∀ l : List α, (∀ x ∈ l, ¬(p x = true ∧ q x = true)) →
      ((l.filter (fun x => p x || q x)).map f).sum
        = ((l.filter p).map f).sum + ((l.filter q).map f).sum := by
  intro l
  induction l with
  | nil => simp
  | cons a t ih =>
    intro h
    have ht := ih (fun x hx => h x (List.mem_cons_of_mem a hx))
    by_cases hp : p a = true
    · have hq : q a = false := by
        cases hq1 : q a
        · rfl
        · exact absurd ⟨hp, hq1⟩ (h a (List.mem_cons_self a t))
      simp only [List.filter_cons, hp, hq, Bool.true_or, if_true, if_false,
        Bool.false_eq_true, List.map_cons, List.sum_cons, ht]
      ring
    · have hp' : p a = false := by simpa using hp
      by_cases hq : q a = true
      · simp only [List.filter_cons, hp', hq, Bool.false_or, if_true, if_false,
          Bool.false_eq_true, List.map_cons, List.sum_cons, ht]
        ring
      · have hq' : q a = false := by simpa using hq
        simp only [List.filter_cons, hp', hq', Bool.false_or, if_false,
          Bool.false_eq_true, ht]

/-- Filtering by a pointwise disjoint disjunction splits the length. -/
theorem filter_or_length {α : Type} (p q : α → Bool) :
    ∀ l : List α, (∀ x ∈ l, ¬(p x = true ∧ q x = true)) →
      (l.filter (fun x => p x || q x)).length
        = (l.filter p).length + (l.filter q).length := by
  intro l
  induction l with
  | nil => simp
  | cons a t ih =>
    intro h
    have ht := ih (fun x hx => h x (List.mem_cons_of_mem a hx))
    by_cases hp : p a = true
    · have hq : q a = false := by
        cases hq1 : q a
        · rfl
        · exact absurd ⟨hp, hq1⟩ (h a (List.mem_cons_self a t))
      simp only [List.filter_cons, hp, hq, Bool.true_or, if_true, if_false,
        Bool.false_eq_true, List.length_cons, ht]
      omega
    · have hp' : p a = false := by simpa using hp
      by_cases hq : q a = true
      · simp only [List.filter_cons, hp', hq, Bool.false_or, if_true, if_false,
          Bool.false_eq_true, List.length_cons, ht]
        omega
      · have hq' : q a = false := by simpa using hq
        simp only [List.filter_cons, hp', hq', Bool.false_or, if_false,
          Bool.false_eq_true, ht]

/-- In a table with pairwise distinct names, filtering by a name that occurs
in the table keeps exactly one row, the one `find?` returns. -/
theorem filter_name_unique (n : String) :
    ∀ df : List Player, (df.map (fun r => r.name)).Nodup →
      n ∈ df.map (fun r => r.name) →
      ∃ r, df.find? (fun r => r.name == n) = some r
        ∧ df.filter (fun r => r.name == n) = [r] := by
  intro df
  induction df with
  | nil =>
    intro _ h
    simp at h
  | cons a t ih =>
    intro hnd hmem
    rw [List.map_cons, List.nodup_cons] at hnd
    obtain ⟨hna, hndt⟩ := hnd
    by_cases h : a.name = n
    · refine ⟨a, ?_, ?_⟩
      · simp [h]
      · have ht : t.filter (fun r => r.name == n) = [] := by
          rw [List.filter_eq_nil_iff]
          intro x hx
          simp only [beq_iff_eq]
          intro hxn
          exact hna (by
            rw [h, ← hxn]
            exact List.mem_map_of_mem (fun r => r.name) hx)
        simp [List.filter_cons, h, ht]
    · have hmem' : n ∈ t.map (fun r => r.name) := by
        simp only [List.map_cons, List.mem_cons] at hmem
        rcases hmem with h1 | h1
        · exact absurd h1.symm h
        · exact h1
      obtain ⟨r, hf, hfil⟩ := ih hndt hmem'
      refine ⟨r, ?_, ?_⟩
      · rw [List.find?_cons_of_neg _ (by simpa using h)]
        exact hf
      · simp [List.filter_cons, h, hfil]

/-- Over a table with pairwise distinct names, the comparison filter keeps
one row per selected name present in the table: the kept ppg values sum to
the sum of the selected players' individual ppg values, and the kept row
count is the number of selected players. -/
theorem comparison_sum_length (df : List Player)
    (hnames : (df.map (fun r => r.name)).Nodup) :
    ∀ sel : List String, sel.Nodup →
      (∀ n ∈ sel, n ∈ df.map (fun r => r.name)) →
      ((df.filter (fun r => sel.contains r.name)).map (fun r => r.ppg)).sum
          = (sel.map (lookupPpg df)).sum
        ∧ (df.filter (fun r => sel.contains r.name)).length = sel.length := by
  intro sel
  induction sel with
  | nil =>
    intro _ _
    simp
  | cons n rest ih =>
    intro hsel hmem
    rw [List.nodup_cons] at hsel
    obtain ⟨hnr, hrest⟩ := hsel
    obtain ⟨hsum, hlen⟩ := ih hrest (fun m hm => hmem m (List.mem_cons_of_mem n hm))
    have hcongr : df.filter (fun r => (n :: rest).contains r.name)
        = df.filter (fun r => (r.name == n) || rest.contains r.name) := by
      apply List.filter_congr
      intro x _
      exact List.contains_cons
    have hdisj : ∀ x ∈ df,
        ¬((x.name == n) = true ∧ rest.contains x.name = true) := by
      rintro x _ ⟨h1, h2⟩
      rw [beq_iff_eq] at h1
      rcases List.contains_iff_exists_mem_beq.mp h2 with ⟨m, hm, hbeq⟩
      rw [beq_iff_eq] at hbeq
      exact hnr (by rw [← h1, hbeq]; exact hm)
    obtain ⟨r0, hfind, hfil⟩ :=
      filter_name_unique n df hnames (hmem n (List.mem_cons_self n rest))
    constructor
    · rw [hcongr, filter_or_sum _ _ _ df hdisj, hfil, hsum, List.map_cons,
        List.sum_cons]
      simp [lookupPpg, hfind]
    · rw [hcongr, filter_or_length _ _ df hdisj, hfil, hlen, List.length_cons]
      simp [Nat.add_comm]

/-- Claim C2 (amended): over a loaded table with pairwise distinct names,
when the position filter is "All" and every selected player is present in
the table, the Points Per Game metric of the comparison tab equals the
arithmetic mean of the selected players' individual ppg values. -/
theorem ppg_metric_mean_of_selected_allpos_c2 (df : List Player)
    (sel : List String)
    (hseason : ∀ r ∈ df, r.season = "2024-25")
    (hnames : (df.map (fun r => r.name)).Nodup)
    (hsel : sel.Nodup)
    (hmem : ∀ n ∈ sel, n ∈ df.map (fun r => r.name))
    (hne : sel ≠ []) :
    ppgMetric df "2024-25" sel "All"
      = some ((sel.map (lookupPpg df)).sum / (sel.length : Rat)) := by
  have hfdf : filtered_df df "2024-25" "All" = df := by
    rw [filtered_df_all, List.filter_eq_self]
    intro r hr
    simp [hseason r hr]
  obtain ⟨hsum, hlen⟩ := comparison_sum_length df hnames sel hsel hmem
  unfold ppgMetric
  rw [hfdf]
  unfold comparison_df
  have h0 : ((df.filter (fun r => sel.contains r.name)).map
      (fun r => r.ppg)).length = sel.length := by
    rw [List.length_map]
    exact hlen
  have hemp : ¬(((df.filter (fun r => sel.contains r.name)).map
      (fun r => r.ppg)).isEmpty = true) := by
    rw [List.isEmpty_iff]
    intro hnil
    rw [hnil] at h0
    exact hne (List.length_eq_zero.mp h0.symm)
  unfold seriesMean
  rw [if_neg hemp, hsum, List.length_map, hlen]

/-- Witness for the amended C2 at the concrete two-row table, both players
selected and the position filter left at "All": the metric is the mean of
the two individual ppg values. -/
theorem ppg_metric_mean_of_selected_allpos_c2_witness :
    (∀ r ∈ dfPair, r.season = "2024-25")
      ∧ (dfPair.map (fun r => r.name)).Nodup
      ∧ (["A", "B"] : List String).Nodup
      ∧ (∀ n ∈ (["A", "B"] : List String), n ∈ dfPair.map (fun r => r.name))
      ∧ (["A", "B"] : List String) ≠ []
      ∧ ppgMetric dfPair "2024-25" ["A", "B"] "All"
          = some (((["A", "B"] : List String).map (lookupPpg dfPair)).sum
              / (((["A", "B"] : List String).length : Nat) : Rat)) :=
  ⟨by decide, by decide, by decide, by decide, by decide,
    ppg_metric_mean_of_selected_allpos_c2 dfPair ["A", "B"] (by decide)
      (by decide) (by decide) (by decide) (by decide)⟩

/-- Claim C2 as frozen is false on the code: with the two-row table, both
players selected and the position filter set to "PG", the shown Points Per
Game metric is 30 (the mean over the position-filtered comparison rows),
not 25, the arithmetic mean of the two selected players' individual ppg
values. -/
theorem ppg_metric_not_mean_of_selected_c2 :
    (["A", "B"] : List String) ≠ []
      ∧ ((["A", "B"] : List String).map (lookupPpg dfPair)).sum
          / (((["A", "B"] : List String).length : Nat) : Rat) = 25
      ∧ ppgMetric dfPair "2024-25" ["A", "B"] "PG" = some 30
      ∧ ppgMetric dfPair "2024-25" ["A", "B"] "PG"
          ≠ some (((["A", "B"] : List String).map (lookupPpg dfPair)).sum
              / (((["A", "B"] : List String).length : Nat) : Rat)) := by
  have h0 : (comparison_df (filtered_df dfPair "2024-25" "PG") ["A", "B"]).map
      (fun r => r.ppg) = [(30 : Rat)] := by decide
  have h1 : ppgMetric dfPair "2024-25" ["A", "B"] "PG" = some 30 := by
    unfold ppgMetric
    rw [h0]
    norm_num [seriesMean]
  have h2' : (["A", "B"] : List String).map (lookupPpg dfPair)
      = [(30 : Rat), 20] := by decide
  have h2 : (((["A", "B"] : List String).map (lookupPpg dfPair)).sum
      / (((["A", "B"] : List String).length : Nat) : Rat)) = 25 := by
    rw [h2']
    norm_num
  refine ⟨by decide, h2, h1, ?_⟩
  rw [h1, h2]
  decide
